import Mathlib

/-!
Shallow embedding of the Solana Pay scavenger-hunt check-in endpoint
(`src/components/Navbar.tsx`, second document: the Next.js API handler).

Public keys are modelled by their base58 string representation (the source
only ever compares keys via `toString()` equality).  External collaborators
(the web3.js `PublicKey` parser, the RPC connection, the deployed Anchor
program and the static location registry) are gathered in an `Env` record;
fallible external calls return `Except JsError _`, mirroring JavaScript
throws.  JavaScript thrown values are modelled by `JsError`, whose
`message` field is the string `""` when the thrown value has no truthy
`message` (the only inspection the handler performs).
-/

namespace ScavengerHunt

/-- A public key, identified by its base58 string form. -/
abbrev PublicKey := String

/-- A JavaScript thrown value, as far as the handler inspects it:
`message = ""` models a falsy/absent `message` field. -/
structure JsError where
  message : String
deriving DecidableEq, Repr

instance {ε α : Type} [DecidableEq ε] [DecidableEq α] : DecidableEq (Except ε α)
  | .ok a, .ok b =>
    if h : a = b then .isTrue (by rw [h])
    else .isFalse (by intro hc; cases hc; exact h rfl)
  | .ok _, .error _ => .isFalse (by intro hc; cases hc)
  | .error _, .ok _ => .isFalse (by intro hc; cases hc)
  | .error e, .error f =>
    if h : e = f then .isTrue (by rw [h])
    else .isFalse (by intro hc; cases hc; exact h rfl)

/-- One entry of an instruction's account list (web3.js `AccountMeta`). -/
structure AccountMeta where
  pubkey : PublicKey
  isSigner : Bool
  isWritable : Bool
deriving DecidableEq, Repr

/-- Which Anchor method an instruction invokes. -/
inductive InstrKind where
  | initializeUser
  | checkIn
deriving DecidableEq, Repr

/-- A transaction instruction: the Anchor method it invokes, the method
arguments the handler supplies (`gameId`, and the location key for
`checkIn`), and its account-meta list. -/
structure TransactionInstruction where
  kind : InstrKind
  gameId : PublicKey
  locationKey : Option PublicKey
  keys : List AccountMeta
deriving DecidableEq, Repr

/-- A transaction under construction (web3.js `Transaction`):
fee payer, blockhash bounds, ordered instruction list, and the set of
signers that have already partially signed. -/
structure Transaction where
  feePayer : PublicKey
  blockhash : String
  lastValidBlockHeight : Nat
  instructions : List TransactionInstruction
  signatures : List PublicKey
deriving DecidableEq, Repr

/-- Source `transaction.add(ix)`: append an instruction. -/
def Transaction.add (tx : Transaction) (ix : TransactionInstruction) : Transaction :=
  { tx with instructions := tx.instructions ++ [ix] }

/-- Source `transaction.partialSign(keypair)`: record one more signer. -/
def Transaction.addSignature (tx : Transaction) (signer : PublicKey) : Transaction :=
  { tx with signatures := tx.signatures ++ [signer] }

/-- The signers a fully signed transaction needs: the fee payer plus every
account meta marked `isSigner` in some instruction. -/
def Transaction.requiredSigners (tx : Transaction) : List PublicKey :=
  tx.feePayer :: (tx.instructions.flatMap fun ix => (ix.keys.filter (·.isSigner)).map (·.pubkey))

/-- Deterministic wire encoding of an account meta. -/
def encodeMeta (m : AccountMeta) : String :=
  m.pubkey ++ (if m.isSigner then "+S" else "-S") ++ (if m.isWritable then "+W" else "-W")

/-- Deterministic wire encoding of an instruction. -/
def encodeInstr (ix : TransactionInstruction) : String :=
  (match ix.kind with
    | .initializeUser => "initialize("
    | .checkIn => "checkIn(")
    ++ ix.gameId ++ "," ++ (ix.locationKey.getD "-") ++ ")["
    ++ String.intercalate ";" (ix.keys.map encodeMeta) ++ "]"

/-- Deterministic wire encoding (base64 serialization) of a transaction. -/
def encodeTx (tx : Transaction) : String :=
  "tx\x7b" ++ tx.feePayer ++ "|" ++ tx.blockhash ++ "|" ++ toString tx.lastValidBlockHeight
    ++ "|" ++ String.intercalate ";" (tx.instructions.map encodeInstr)
    ++ "|signed:" ++ String.intercalate ";" tx.signatures ++ "\x7d"

/-- Source `transaction.serialize` with `requireAllSignatures`, followed by
`toString('base64')`: throws when all signatures are required but some
required signer has not signed; otherwise yields the encoding. -/
def Transaction.serialize (tx : Transaction) (requireAllSignatures : Bool) :
    Except JsError String :=
  if requireAllSignatures && !(tx.requiredSigners.all fun s => tx.signatures.contains s) then
    .error ⟨"Signature verification failed"⟩
  else
    .ok (encodeTx tx)

/-- One registered location (`src/utils/locations`): an index and a key. -/
structure Location where
  index : Nat
  key : PublicKey
deriving DecidableEq, Repr

/-- The user-state account deserialized by the Anchor client
(interface `UserState` in the source). -/
structure UserState where
  user : PublicKey
  gameId : PublicKey
  lastLocation : PublicKey
deriving DecidableEq, Repr

/-- The external world one request sees: the web3.js `PublicKey`
constructor, the Anchor user-state fetch at the PDA derived for the given
account, the RPC `getLatestBlockhash`, the Anchor-generated account lists
of the two program methods, the fixed `gameId`, the process-wide event
organizer key, and the static location registry. -/
structure Env where
  parsePublicKey : String → Except JsError PublicKey
  userStateFetch : PublicKey → Except JsError UserState
  blockhashFetch : Except JsError (String × Nat)
  initUserKeys : PublicKey → List AccountMeta
  checkInKeys : PublicKey → List AccountMeta
  gameId : PublicKey
  eventOrganizer : PublicKey
  locations : List Location

/-- Modelled from the spec: `src/utils/locations` is not among the
sources; per spec §4.1 the registry exposes lookup by index, "given an
index, return the matching location or 'not found'". -/
def locationAtIndex (locs : List Location) (i : Nat) : Option Location :=
  locs.find? fun l => l.index == i

/-- Accumulate a decimal numeral; any non-digit character spoils the
conversion (as JS `Number` yields `NaN`, which matches no index). -/
def digitsToNat : List Char → Nat → Option Nat
  | [], acc => some acc
  | c :: cs, acc =>
    if c.isDigit then digitsToNat cs (acc * 10 + (c.toNat - 48)) else none

/-- Source `new Number(id).valueOf()`, restricted to the nonnegative decimal
numerals — the only strings that can name a registered location index;
every other string converts to no usable index. -/
def jsIndex? (s : String) : Option Nat :=
  match s.data with
  | [] => none
  | cs => digitsToNat cs 0

/-- Source `new Number(id).valueOf()` followed by the registry lookup: a string
that does not denote a registered integer index resolves to no location. -/
def resolveLocation (locs : List Location) (id : String) : Option Location :=
  (jsIndex? id).bind (locationAtIndex locs)

/-- Source `fetchUserState`: derive the PDA for the account and fetch it via the
Anchor client; every throw (absence of the account or an RPC failure) is
caught and collapsed to `null`. -/
def fetchUserState (env : Env) (account : PublicKey) : Option UserState :=
  match env.userStateFetch account with
  | .ok st => some st
  | .error _ => none

/-- Source `verifyCorrectLocation`: with no state the target index must be 1;
otherwise find the registered location whose key equals
`userState.lastLocation` (string comparison) and require the target index
to be its index plus one. -/
def verifyCorrectLocation (locs : List Location) (userState : Option UserState)
    (currentLocation : Location) : Bool :=
  match userState with
  | none => currentLocation.index == 1
  | some st =>
    match locs.find? (fun location => location.key == st.lastLocation) with
    | none => false
    | some lastLocation => currentLocation.index == lastLocation.index + 1

/-- Source `createInitUserInstruction`:
`program.methods.initialize(gameId).accounts({user: account}).instruction()`. -/
def createInitUserInstruction (env : Env) (account : PublicKey) : TransactionInstruction :=
  { kind := .initializeUser
    gameId := env.gameId
    locationKey := none
    keys := env.initUserKeys account }

/-- Source `createCheckInInstruction`:
`program.methods.checkIn(gameId, location.key).accounts({...}).instruction()`,
then `keys.push({pubkey: reference, isSigner: false, isWritable: false})`. -/
def createCheckInInstruction (env : Env) (account reference : PublicKey)
    (location : Location) : TransactionInstruction :=
  let checkInInstruction : TransactionInstruction :=
    { kind := .checkIn
      gameId := env.gameId
      locationKey := some location.key
      keys := env.checkInKeys account }
  { checkInInstruction with
      keys := checkInInstruction.keys ++ [⟨reference, false, false⟩] }

/-- The transaction `buildTransaction` assembles when validation passes:
fee payer `account`, the fetched blockhash bounds, an initialize-user
instruction exactly when the user had no state, then the check-in
instruction, partially signed by the organizer. -/
def builtTx (env : Env) (account reference : PublicKey) (hadState : Bool)
    (loc : Location) (bh : String) (height : Nat) : Transaction :=
  { feePayer := account
    blockhash := bh
    lastValidBlockHeight := height
    instructions :=
      (if hadState then [] else [createInitUserInstruction env account])
        ++ [createCheckInInstruction env account reference loc]
    signatures := [env.eventOrganizer] }

/-- Source `buildTransaction`: fetch user state, resolve the location id, verify
ordering, fetch a blockhash, assemble and partially sign the transaction,
serialize without requiring all signatures, return the base64 string.
Thrown values propagate as `.error`. -/
def buildTransaction (env : Env) (account reference : PublicKey) (id : String) :
    Except JsError String :=
  let userState := fetchUserState env account
  match resolveLocation env.locations id with
  | none => .error ⟨"Invalid location id"⟩
  | some currentLocation =>
    if !(verifyCorrectLocation env.locations userState currentLocation) then
      .error ⟨"You must visit each location in order!"⟩
    else
      match env.blockhashFetch with
      | .error e => .error e
      | .ok (blockhash, lastValidBlockHeight) =>
        let transaction : Transaction :=
          { feePayer := account
            blockhash := blockhash
            lastValidBlockHeight := lastValidBlockHeight
            instructions := []
            signatures := [] }
        let transaction :=
          if userState.isNone then
            transaction.add (createInitUserInstruction env account)
          else transaction
        let transaction :=
          transaction.add (createCheckInInstruction env account reference currentLocation)
        let transaction := transaction.addSignature env.eventOrganizer
        transaction.serialize false

/-- The JSON bodies the endpoint produces. -/
inductive RespBody where
  | errBody (error : String)
  | txBody (transaction : String) (message : String)
  | descriptor (label : String) (icon : String)
deriving DecidableEq, Repr

/-- An HTTP response: status code and JSON body. -/
structure Resp where
  status : Nat
  body : RespBody
deriving DecidableEq, Repr

/-- A POST request as the handler reads it: `req.body.account`,
`req.query.reference`, `req.query.id`.  `none` models an absent field. -/
structure Req where
  account : Option String
  reference : Option String
  id : Option String

/-- JavaScript truthiness of a possibly-absent string parameter
(`undefined` and `""` are falsy). -/
def truthy : Option String → Bool
  | none => false
  | some s => s ≠ ""

/-- The `try` block of `post`: parse both keys (each may throw), then
build the transaction. -/
def postResult (env : Env) (req : Req) : Except JsError String :=
  match env.parsePublicKey (req.account.getD "") with
  | .error e => .error e
  | .ok account =>
    match env.parsePublicKey (req.reference.getD "") with
    | .error e => .error e
    | .ok reference => buildTransaction env account reference (req.id.getD "")

/-- Source `post`: reject missing parameters with 400 before anything else; on a
successful build answer 200 with the transaction; on a throw answer 200
with the error's message and an empty transaction when the message is
truthy, else 500 with a generic body. -/
def post (env : Env) (req : Req) : Resp :=
  if !(truthy req.account) || !(truthy req.reference) || !(truthy req.id) then
    ⟨400, .errBody "Missing required parameter(s)"⟩
  else
    match postResult env req with
    | .ok transaction =>
      ⟨200, .txBody transaction ("You've found location " ++ req.id.getD "" ++ "!")⟩
    | .error e =>
      if e.message ≠ "" then ⟨200, .txBody "" e.message⟩
      else ⟨500, .errBody "error creating transaction"⟩

/-- Source `get`: the fixed Solana Pay descriptor. -/
def get : Resp :=
  ⟨200, .descriptor "Scavenger Hunt!" "https://solana.com/src/img/branding/solanaLogoMark.svg"⟩

/-- The method-dispatching handler. -/
def handler (env : Env) (method : String) (req : Req) : Resp :=
  if method == "GET" then get
  else if method == "POST" then post env req
  else ⟨405, .errBody "Method not allowed"⟩

/-! ### Concrete environments for evaluating the model -/

/-- A three-location registry matching the spec's shape for the registry
(§3: indices ordered from 1, distinct keys). -/
def sampleLocations : List Location :=
  [⟨1, "LocKey1"⟩, ⟨2, "LocKey2"⟩, ⟨3, "LocKey3"⟩]

/-- A concrete stand-in for the web3.js `PublicKey` constructor: the
string `"badkey"` is rejected with the parser's message. -/
def sampleParse : String → Except JsError PublicKey :=
  fun s => if s = "badkey" then .error ⟨"Invalid public key input"⟩ else .ok s

/-- Anchor-derived account list of the `initialize` method. -/
def sampleInitKeys (account : PublicKey) : List AccountMeta :=
  [⟨account, true, true⟩, ⟨"StatePda", false, true⟩, ⟨"SystemProgram", false, false⟩]

/-- Anchor-derived account list of the `checkIn` method. -/
def sampleCheckInKeys (account : PublicKey) : List AccountMeta :=
  [⟨account, true, true⟩, ⟨"StatePda", false, true⟩, ⟨"Organizer", true, false⟩]

/-- A world in which the caller has no user-state account: the Anchor
fetch throws. -/
def envNoState : Env :=
  { parsePublicKey := sampleParse
    userStateFetch := fun _ => .error ⟨"Account does not exist or has no data"⟩
    blockhashFetch := .ok ("Blockhash111", 500)
    initUserKeys := sampleInitKeys
    checkInKeys := sampleCheckInKeys
    gameId := "Game1"
    eventOrganizer := "Organizer"
    locations := sampleLocations }

/-- A world in which the caller's user state records `lastKey` as the last
checked-in location. -/
def envWithState (lastKey : PublicKey) : Env :=
  { envNoState with userStateFetch := fun a => .ok ⟨a, "Game1", lastKey⟩ }

/-- A world in which the blockhash fetch fails with a network error. -/
def envNetErr : Env :=
  { envNoState with blockhashFetch := .error ⟨"Network request failed"⟩ }

/-! ### Claims -/

/-- Inversion helper: a successful build came from a resolved location, a
successful blockhash fetch, and the serialized assembled transaction. -/
theorem buildTransaction_ok_shape
    (env : Env) (account reference : PublicKey) (id : String) (s : String)
    (hok : buildTransaction env account reference id = .ok s) :
    ∃ loc bh height,
      resolveLocation env.locations id = some loc ∧
      env.blockhashFetch = .ok (bh, height) ∧
      s = encodeTx
        (builtTx env account reference (fetchUserState env account).isSome loc bh height) := by
  unfold buildTransaction at hok
  cases hres : resolveLocation env.locations id with
  | none => rw [hres] at hok; exact absurd hok (by simp)
  | some loc =>
    rw [hres] at hok
    by_cases hv : verifyCorrectLocation env.locations (fetchUserState env account) loc
    · simp only [hv, Bool.not_true, Bool.false_eq_true, if_false] at hok
      cases hbh : env.blockhashFetch with
      | error e => rw [hbh] at hok; exact absurd hok (by simp)
      | ok p =>
        obtain ⟨bh, height⟩ := p
        rw [hbh] at hok
        refine ⟨loc, bh, height, rfl, rfl, ?_⟩
        cases hstate : fetchUserState env account with
        | none =>
          simp only [hstate] at hok
          simp [Transaction.serialize, Transaction.add, Transaction.addSignature,
            Transaction.requiredSigners] at hok
          simp [builtTx, hstate, ← hok]
        | some st =>
          simp only [hstate] at hok
          simp [Transaction.serialize, Transaction.add, Transaction.addSignature,
            Transaction.requiredSigners] at hok
          simp [builtTx, hstate, ← hok]
    · simp [eq_false_of_ne_true hv] at hok

/-- The assembled transaction refuses to serialize with all signatures
required: the fee payer (the player) has not signed. -/
theorem builtTx_serialize_requireAll
    (env : Env) (account reference : PublicKey) (hadState : Bool)
    (loc : Location) (bh : String) (height : Nat)
    (hne : account ≠ env.eventOrganizer) :
    (builtTx env account reference hadState loc bh height).serialize true =
      .error ⟨"Signature verification failed"⟩ := by
  simp [builtTx, Transaction.serialize, Transaction.requiredSigners, List.all_cons, hne]

/-- C1: with no prior user state, a registered target succeeds exactly
when its index is 1, in which case the transaction holds an
initialize-user instruction followed by a check-in instruction; any other
registered target fails with the out-of-order message. -/
theorem noState_succeeds_iff_index_one
    (env : Env) (account reference : PublicKey) (id : String)
    (loc : Location) (bh : String) (height : Nat)
    (hstate : fetchUserState env account = none)
    (hloc : resolveLocation env.locations id = some loc)
    (hbh : env.blockhashFetch = .ok (bh, height)) :
    (loc.index = 1 →
      buildTransaction env account reference id =
        .ok (encodeTx (builtTx env account reference false loc bh height))
      ∧ (builtTx env account reference false loc bh height).instructions.map (·.kind)
          = [.initializeUser, .checkIn])
    ∧ (loc.index ≠ 1 →
      buildTransaction env account reference id =
        .error ⟨"You must visit each location in order!"⟩) := by
  constructor
  · intro h1
    constructor
    · simp [buildTransaction, hstate, hloc, hbh, verifyCorrectLocation, h1,
        Transaction.add, Transaction.addSignature, Transaction.serialize, builtTx]
    · simp [builtTx, createInitUserInstruction, createCheckInInstruction]
  · intro h1
    simp [buildTransaction, hstate, hloc, hbh, verifyCorrectLocation, h1]

/-- C1 witness: in the concrete no-state world, id "1" yields the
two-instruction transaction and id "2" is rejected out of order. -/
theorem noState_succeeds_iff_index_one_witness :
    buildTransaction envNoState "Player1" "Ref1" "1" =
      .ok (encodeTx (builtTx envNoState "Player1" "Ref1" false ⟨1, "LocKey1"⟩ "Blockhash111" 500))
    ∧ buildTransaction envNoState "Player1" "Ref1" "2" =
      .error ⟨"You must visit each location in order!"⟩ :=
  ⟨((noState_succeeds_iff_index_one envNoState "Player1" "Ref1" "1"
      ⟨1, "LocKey1"⟩ "Blockhash111" 500 (by decide) (by decide) (by decide)).1 rfl).1,
   (noState_succeeds_iff_index_one envNoState "Player1" "Ref1" "2"
      ⟨2, "LocKey2"⟩ "Blockhash111" 500 (by decide) (by decide) (by decide)).2 (by decide)⟩

/-- C2: with prior state whose `lastLocation` is the registered location
of index N, a registered target succeeds exactly when its index is N+1,
in which case the transaction holds a check-in instruction only; any
other registered target fails with the out-of-order message. -/
theorem withState_succeeds_iff_next_index
    (env : Env) (account reference : PublicKey) (id : String)
    (st : UserState) (lastLoc loc : Location) (bh : String) (height : Nat)
    (hstate : fetchUserState env account = some st)
    (hlast : env.locations.find? (fun location => location.key == st.lastLocation)
      = some lastLoc)
    (hloc : resolveLocation env.locations id = some loc)
    (hbh : env.blockhashFetch = .ok (bh, height)) :
    (loc.index = lastLoc.index + 1 →
      buildTransaction env account reference id =
        .ok (encodeTx (builtTx env account reference true loc bh height))
      ∧ (builtTx env account reference true loc bh height).instructions.map (·.kind)
          = [.checkIn])
    ∧ (loc.index ≠ lastLoc.index + 1 →
      buildTransaction env account reference id =
        .error ⟨"You must visit each location in order!"⟩) := by
  constructor
  · intro h1
    constructor
    · simp [buildTransaction, hstate, hloc, hbh, verifyCorrectLocation, hlast, h1,
        Transaction.add, Transaction.addSignature, Transaction.serialize, builtTx]
    · simp [builtTx, createCheckInInstruction]
  · intro h1
    simp [buildTransaction, hstate, hloc, hbh, verifyCorrectLocation, hlast, h1]

/-- C2 witness: with state at the index-1 location, id "2" yields the
check-in-only transaction while id "1" and id "3" are rejected. -/
theorem withState_succeeds_iff_next_index_witness :
    buildTransaction (envWithState "LocKey1") "Player1" "Ref1" "2" =
      .ok (encodeTx (builtTx (envWithState "LocKey1") "Player1" "Ref1" true
        ⟨2, "LocKey2"⟩ "Blockhash111" 500))
    ∧ buildTransaction (envWithState "LocKey1") "Player1" "Ref1" "3" =
      .error ⟨"You must visit each location in order!"⟩ :=
  ⟨((withState_succeeds_iff_next_index (envWithState "LocKey1") "Player1" "Ref1" "2"
      ⟨"Player1", "Game1", "LocKey1"⟩ ⟨1, "LocKey1"⟩ ⟨2, "LocKey2"⟩ "Blockhash111" 500
      (by decide) (by decide) (by decide) (by decide)).1 rfl).1,
   (withState_succeeds_iff_next_index (envWithState "LocKey1") "Player1" "Ref1" "3"
      ⟨"Player1", "Game1", "LocKey1"⟩ ⟨1, "LocKey1"⟩ ⟨3, "LocKey3"⟩ "Blockhash111" 500
      (by decide) (by decide) (by decide) (by decide)).2 (by decide)⟩

/-- C4: an id resolving to no registered location fails with the
invalid-location message, whatever the user-state fetch would return and
before the ordering check or any blockhash fetch can matter. -/
theorem unregistered_id_invalid_location
    (env : Env) (account reference : PublicKey) (id : String)
    (hres : resolveLocation env.locations id = none) :
    buildTransaction env account reference id = .error ⟨"Invalid location id"⟩
    ∧ ∀ f : PublicKey → Except JsError UserState,
        buildTransaction { env with userStateFetch := f } account reference id =
          .error ⟨"Invalid location id"⟩ := by
  constructor
  · simp [buildTransaction, hres]
  · intro f
    simp [buildTransaction, hres]

/-- C4 witness: id "7" (registered nowhere) is rejected as invalid in the
no-state world, and stays rejected whatever the state fetch returns. -/
theorem unregistered_id_invalid_location_witness :
    buildTransaction envNoState "Player1" "Ref1" "7" = .error ⟨"Invalid location id"⟩
    ∧ ∀ f : PublicKey → Except JsError UserState,
        buildTransaction { envNoState with userStateFetch := f } "Player1" "Ref1" "7" =
          .error ⟨"Invalid location id"⟩ :=
  unregistered_id_invalid_location envNoState "Player1" "Ref1" "7" (by decide)

/-- C5: a POST missing `account`, `reference` or `id` answers 400 with the
missing-parameter body, and the answer is the same in every environment —
no network call can influence it. -/
theorem missing_param_400
    (env env2 : Env) (req : Req)
    (h : truthy req.account = false ∨ truthy req.reference = false
      ∨ truthy req.id = false) :
    post env req = ⟨400, .errBody "Missing required parameter(s)"⟩
    ∧ post env req = post env2 req := by
  have hif : (!(truthy req.account) || !(truthy req.reference) || !(truthy req.id)) = true := by
    rcases h with h | h | h <;> simp [h]
  constructor
  · simp [post, hif]
  · simp [post, hif]

/-- C5 witness: a request with no `reference` gets the 400 body in the
no-state world and identically in the network-error world. -/
theorem missing_param_400_witness :
    post envNoState ⟨some "Player1", none, some "1"⟩ =
      ⟨400, .errBody "Missing required parameter(s)"⟩
    ∧ post envNoState ⟨some "Player1", none, some "1"⟩ =
      post envNetErr ⟨some "Player1", none, some "1"⟩ :=
  missing_param_400 envNoState envNetErr ⟨some "Player1", none, some "1"⟩
    (by right; left; decide)

/-- C8: GET always answers the fixed descriptor, for any request contents
and environment; any method other than GET and POST answers 405. -/
theorem get_and_method_dispatch
    (env : Env) (req : Req) (m : String)
    (hg : m ≠ "GET") (hp : m ≠ "POST") :
    handler env "GET" req =
      ⟨200, .descriptor "Scavenger Hunt!"
        "https://solana.com/src/img/branding/solanaLogoMark.svg"⟩
    ∧ handler env m req = ⟨405, .errBody "Method not allowed"⟩ := by
  constructor
  · simp [handler, get]
  · simp [handler, hg, hp]

/-- C8 witness: a DELETE with arbitrary parameters gets 405, while GET on
the same request gets the descriptor. -/
theorem get_and_method_dispatch_witness :
    handler envNoState "GET" ⟨some "x", some "y", some "9"⟩ =
      ⟨200, .descriptor "Scavenger Hunt!"
        "https://solana.com/src/img/branding/solanaLogoMark.svg"⟩
    ∧ handler envNoState "DELETE" ⟨some "x", some "y", some "9"⟩ =
      ⟨405, .errBody "Method not allowed"⟩ :=
  get_and_method_dispatch envNoState ⟨some "x", some "y", some "9"⟩ "DELETE"
    (by decide) (by decide)

/-- C6: every string a successful build returns is the encoding of a
transaction whose fee payer is the caller, carrying exactly the
organizer's partial signature, serialized without requiring all
signatures — and requiring them would have failed, the player's signature
being absent. -/
theorem success_returns_signed_serialization
    (env : Env) (account reference : PublicKey) (id : String) (s : String)
    (hok : buildTransaction env account reference id = .ok s) :
    ∃ tx : Transaction,
      s = encodeTx tx
      ∧ tx.feePayer = account
      ∧ tx.signatures = [env.eventOrganizer]
      ∧ tx.serialize false = .ok s
      ∧ (account ≠ env.eventOrganizer →
          tx.serialize true = .error ⟨"Signature verification failed"⟩) := by
  obtain ⟨loc, bh, height, hres, hbh, hs⟩ :=
    buildTransaction_ok_shape env account reference id s hok
  refine ⟨builtTx env account reference (fetchUserState env account).isSome loc bh height,
    hs, rfl, rfl, ?_, ?_⟩
  · rw [hs]
    simp [Transaction.serialize]
  · intro hne
    exact builtTx_serialize_requireAll env account reference _ loc bh height hne

set_option maxRecDepth 10000 in
/-- C6 witness: the concrete no-state success at id "1". -/
theorem success_returns_signed_serialization_witness :
    ∃ tx : Transaction,
      encodeTx (builtTx envNoState "Player1" "Ref1" false ⟨1, "LocKey1"⟩ "Blockhash111" 500)
        = encodeTx tx
      ∧ tx.feePayer = "Player1"
      ∧ tx.signatures = [envNoState.eventOrganizer]
      ∧ tx.serialize false =
          .ok (encodeTx (builtTx envNoState "Player1" "Ref1" false ⟨1, "LocKey1"⟩
            "Blockhash111" 500))
      ∧ ("Player1" ≠ envNoState.eventOrganizer →
          tx.serialize true = .error ⟨"Signature verification failed"⟩) :=
  success_returns_signed_serialization envNoState "Player1" "Ref1" "1" _ (by decide)

/-- C7: in every transaction the handler builds, the final instruction is
the check-in instruction and its key list ends with the caller's
reference marked neither signer nor writable. -/
theorem reference_appended_nonsigner
    (env : Env) (account reference : PublicKey) (id : String) (s : String)
    (hok : buildTransaction env account reference id = .ok s) :
    ∃ (tx : Transaction) (loc : Location),
      s = encodeTx tx
      ∧ tx.instructions.getLast? = some (createCheckInInstruction env account reference loc)
      ∧ (createCheckInInstruction env account reference loc).keys =
          env.checkInKeys account ++ [⟨reference, false, false⟩]
      ∧ (createCheckInInstruction env account reference loc).keys.getLast? =
          some ⟨reference, false, false⟩ := by
  obtain ⟨loc, bh, height, hres, hbh, hs⟩ :=
    buildTransaction_ok_shape env account reference id s hok
  refine ⟨builtTx env account reference (fetchUserState env account).isSome loc bh height,
    loc, hs, ?_, rfl, ?_⟩
  · cases h : (fetchUserState env account).isSome <;> simp [builtTx, h]
  · simp [createCheckInInstruction]

set_option maxRecDepth 10000 in
/-- C7 witness: the concrete with-state success at id "2". -/
theorem reference_appended_nonsigner_witness :
    ∃ (tx : Transaction) (loc : Location),
      encodeTx (builtTx (envWithState "LocKey1") "Player1" "Ref1" true ⟨2, "LocKey2"⟩
          "Blockhash111" 500) = encodeTx tx
      ∧ tx.instructions.getLast? =
          some (createCheckInInstruction (envWithState "LocKey1") "Player1" "Ref1" loc)
      ∧ (createCheckInInstruction (envWithState "LocKey1") "Player1" "Ref1" loc).keys =
          (envWithState "LocKey1").checkInKeys "Player1" ++ [⟨"Ref1", false, false⟩]
      ∧ (createCheckInInstruction (envWithState "LocKey1") "Player1" "Ref1" loc).keys.getLast? =
          some ⟨"Ref1", false, false⟩ :=
  reference_appended_nonsigner (envWithState "LocKey1") "Player1" "Ref1" "2" _ (by decide)

/-- C9: a failing user-state fetch is collapsed to "no state": the
handler behaves exactly as for any other fetch failure, and — everything
else healthy — the request is answered 200, never 500. -/
theorem state_fetch_error_treated_as_absent
    (env : Env) (req : Req) (account reference : PublicKey) (e e2 : JsError)
    (bh : String) (height : Nat)
    (ha : truthy req.account = true) (hr : truthy req.reference = true)
    (hi : truthy req.id = true)
    (hpa : env.parsePublicKey (req.account.getD "") = .ok account)
    (hpr : env.parsePublicKey (req.reference.getD "") = .ok reference)
    (hf : env.userStateFetch account = .error e)
    (hbh : env.blockhashFetch = .ok (bh, height)) :
    fetchUserState env account = none
    ∧ buildTransaction env account reference (req.id.getD "") =
        buildTransaction { env with userStateFetch := fun _ => Except.error e2 }
          account reference (req.id.getD "")
    ∧ (post env req).status = 200 := by
  have hnone : fetchUserState env account = none := by simp [fetchUserState, hf]
  have hcond : (!(truthy req.account) || !(truthy req.reference) || !(truthy req.id)) = false := by
    simp [ha, hr, hi]
  refine ⟨hnone, ?_, ?_⟩
  · simp [buildTransaction, fetchUserState, hf,
      createInitUserInstruction, createCheckInInstruction]
  · simp only [post, hcond, Bool.false_eq_true, if_false, postResult, hpa, hpr]
    unfold buildTransaction
    rw [hnone]
    cases hres : resolveLocation env.locations (req.id.getD "") with
    | none => simp
    | some loc =>
      by_cases hv : verifyCorrectLocation env.locations none loc
      · simp [hv, hbh, Transaction.serialize, Transaction.add, Transaction.addSignature]
      · simp [eq_false_of_ne_true hv]

/-- C9 witness: the concrete no-state world, whose fetch throws, answers
200 at id "1" and matches the world whose fetch throws an RPC timeout. -/
theorem state_fetch_error_treated_as_absent_witness :
    fetchUserState envNoState "Player1" = none
    ∧ buildTransaction envNoState "Player1" "Ref1" "1" =
        buildTransaction
          { envNoState with userStateFetch := fun _ => Except.error ⟨"rpc timeout"⟩ }
          "Player1" "Ref1" "1"
    ∧ (post envNoState ⟨some "Player1", some "Ref1", some "1"⟩).status = 200 :=
  state_fetch_error_treated_as_absent envNoState ⟨some "Player1", some "Ref1", some "1"⟩
    "Player1" "Ref1" ⟨"Account does not exist or has no data"⟩ ⟨"rpc timeout"⟩
    "Blockhash111" 500 (by decide) (by decide) (by decide)
    (by decide) (by decide) (by decide) (by decide)

/-- C10: a present but unparsable `account` or `reference` makes the
`PublicKey` constructor throw; the error's truthy message routes the
response to 200 with an empty transaction and that message — neither 400
nor 500. -/
theorem invalid_key_input_yields_200
    (env : Env) (req : Req) (account : PublicKey) (e : JsError)
    (ha : truthy req.account = true) (hr : truthy req.reference = true)
    (hi : truthy req.id = true) :
    (env.parsePublicKey (req.account.getD "") = .error e → e.message ≠ "" →
      post env req = ⟨200, .txBody "" e.message⟩)
    ∧ (env.parsePublicKey (req.account.getD "") = .ok account →
        env.parsePublicKey (req.reference.getD "") = .error e → e.message ≠ "" →
        post env req = ⟨200, .txBody "" e.message⟩) := by
  have hcond : (!(truthy req.account) || !(truthy req.reference) || !(truthy req.id)) = false := by
    simp [ha, hr, hi]
  constructor
  · intro hp hm
    simp [post, hcond, postResult, hp, hm]
  · intro hpa hp hm
    simp [post, hcond, postResult, hpa, hp, hm]

/-- C10 witness: the string "badkey" as `account` (and as `reference`)
gets 200 with the parser's message in the concrete world. -/
theorem invalid_key_input_yields_200_witness :
    post envNoState ⟨some "badkey", some "Ref1", some "1"⟩ =
      ⟨200, .txBody "" "Invalid public key input"⟩
    ∧ post envNoState ⟨some "Player1", some "badkey", some "1"⟩ =
      ⟨200, .txBody "" "Invalid public key input"⟩ :=
  ⟨(invalid_key_input_yields_200 envNoState ⟨some "badkey", some "Ref1", some "1"⟩
      "Player1" ⟨"Invalid public key input"⟩ (by decide) (by decide) (by decide)).1
      (by decide) (by decide),
   (invalid_key_input_yields_200 envNoState ⟨some "Player1", some "badkey", some "1"⟩
      "Player1" ⟨"Invalid public key input"⟩ (by decide) (by decide) (by decide)).2
      (by decide) (by decide) (by decide)⟩

/-- C3 counterexample: a network failure of the blockhash fetch — an
unexpected, non-validation failure — is answered 200 with the error's
message, not 500 with the generic body, because the thrown error carries
a truthy message. -/
theorem unexpected_failure_answered_200_counterexample :
    post envNetErr ⟨some "Player1", some "Ref1", some "1"⟩ =
      ⟨200, .txBody "" "Network request failed"⟩
    ∧ post envNetErr ⟨some "Player1", some "Ref1", some "1"⟩ ≠
      ⟨500, .errBody "error creating transaction"⟩ := by
  constructor
  · decide
  · decide

/-- C3 amended: validation failures and every other failure whose thrown
error carries a truthy message are answered 200 with that message and an
empty transaction; only a thrown value without a truthy message is
collapsed to the generic 500. -/
theorem error_surface_split_by_message
    (env : Env) (req : Req) (e : JsError)
    (ha : truthy req.account = true) (hr : truthy req.reference = true)
    (hi : truthy req.id = true)
    (herr : postResult env req = .error e) :
    (e.message ≠ "" → post env req = ⟨200, .txBody "" e.message⟩)
    ∧ (e.message = "" → post env req = ⟨500, .errBody "error creating transaction"⟩) := by
  have hcond : (!(truthy req.account) || !(truthy req.reference) || !(truthy req.id)) = false := by
    simp [ha, hr, hi]
  constructor
  · intro hm
    simp [post, hcond, herr, hm]
  · intro hm
    simp [post, hcond, herr, hm]

/-- C3 witness: the network-error world at a valid first check-in is
answered 200 carrying the network error's message. -/
theorem error_surface_split_by_message_witness :
    post envNetErr ⟨some "Player2", some "Ref2", some "1"⟩ =
      ⟨200, .txBody "" "Network request failed"⟩ :=
  (error_surface_split_by_message envNetErr ⟨some "Player2", some "Ref2", some "1"⟩
    ⟨"Network request failed"⟩ (by decide) (by decide) (by decide) (by decide)).1
    (by decide)

end ScavengerHunt
